import Mathlib

/-!
Shallow embedding of the tenant-scoped identity client of this repository:
the credential codec (`decodeTokenPayload` in
`frontend/react-admin/src/auth.jsx`), the session operations `login`,
`refreshAccessToken`, `logout`, the authenticated request gateways
(`apiClient.request` in `auth.jsx` and `ApiClient.request` in
`utils/apiClient.js`), and the SSO handshake pages
(`SSOCallbackPage.handleCallback`, `AcceptInvitationPage.handleSsoLogin`).

JavaScript runtime features are modelled explicitly:
  * JSON values are the inductive `Json`; `JSON.parse` is a fuel-bounded
    recursive-descent parser `Json.parse`, `JSON.stringify` is
    `Json.stringify`.  Numbers keep their raw lexeme (no field of any
    claim inspects a numeric value).
  * thrown exceptions caught by a surrounding `try`/`catch` are modelled
    as `Option`/explicit error branches; every function is total.
  * `localStorage` is the record `Storage` of the four keys the code
    touches; `setItem` coerces its value to a string via `jsToString`.
  * `atob` is forgiving base64 decoding to a byte list, `btoa` the
    encoder; `decodeURIComponent` applied to the percent-encoded binary
    string is UTF-8 decoding of those bytes.
-/

/-- JSON values as delivered by `JSON.parse`.  A number keeps its source
lexeme: the code under verification never computes with numeric claim
fields, only tests their truthiness. -/
inductive Json where
  | null : Json
  | bool : Bool → Json
  | num : String → Json
  | str : String → Json
  | arr : List Json → Json
  | obj : List (String × Json) → Json
deriving Repr

/-- First binding of a key in a JS object literal's field list. -/
def lookupField : List (String × Json) → String → Option Json
  | [], _ => none
  | (k, v) :: rest, key => if k = key then some v else lookupField rest key

/-- JS property access `o.k`: a value on objects that carry the key,
`undefined` (here `none`) on everything else.  (Access on `null` or
`undefined` throws in JS; the callers below only reach it through the
optional-chaining operator or after a null check, so `none` is faithful.) -/
def Json.getField : Json → String → Option Json
  | .obj fields, key => lookupField fields key
  | _, _ => none

/-- Whether a JSON number lexeme denotes zero: optional sign, then a
mantissa whose digits are all `0` (any exponent leaves zero zero). -/
def zeroLexeme (raw : String) : Bool :=
  let cs :=
    match raw.data with
    | c :: rest => if c = '-' ∨ c = '+' then rest else c :: rest
    | [] => []
  let mantissa := cs.takeWhile (fun c => c ≠ 'e' ∧ c ≠ 'E')
  mantissa.all (fun c => c = '0' ∨ c = '.') ∧ mantissa ≠ []

/-- JS truthiness of a defined value: `null`, `false`, `""` and numeric
zero are falsy; every object and array (even empty) is truthy. -/
def Json.truthy : Json → Bool
  | .null => false
  | .bool b => b
  | .num raw => ¬ zeroLexeme raw
  | .str s => s ≠ ""
  | .arr _ => true
  | .obj _ => true

/-- Truthiness of a possibly-`undefined` value. -/
def jsTruthy : Option Json → Bool
  | none => false
  | some v => v.truthy

/-- JS `a || b` on possibly-undefined values. -/
def jsOr (a b : Option Json) : Option Json :=
  if jsTruthy a then a else b

/-- JS `a || b` where `b` is a defined default. -/
def jsOrElse (a : Option Json) (b : Json) : Json :=
  if jsTruthy a then a.getD b else b

/-- Hex digit for a value below 16. -/
def hexDigit (n : Nat) : Char :=
  if n < 10 then Char.ofNat (48 + n) else Char.ofNat (55 + n % 16)

/-- Escape one character for a JSON string literal: quote and backslash
get a backslash, control characters a `\u00XX` escape. -/
def escapeJsonChar (c : Char) : String :=
  if c = '"' then "\\\""
  else if c = '\\' then "\\\\"
  else if c.toNat < 32 then
    "\\u00" ++ String.mk [hexDigit (c.toNat / 16), hexDigit (c.toNat % 16)]
  else String.mk [c]

/-- JSON string literal for `s`, quotes included. -/
def quoteJson (s : String) : String :=
  "\"" ++ String.join (s.data.map escapeJsonChar) ++ "\""

mutual

/-- `JSON.stringify` on defined values. -/
def Json.stringify : Json → String
  | .null => "null"
  | .bool true => "true"
  | .bool false => "false"
  | .num raw => raw
  | .str s => quoteJson s
  | .arr xs => "[" ++ stringifyElems xs ++ "]"
  | .obj fields => "\x7b" ++ stringifyMembers fields ++ "\x7d"

def stringifyElems : List Json → String
  | [] => ""
  | [x] => Json.stringify x
  | x :: xs => Json.stringify x ++ "," ++ stringifyElems xs

def stringifyMembers : List (String × Json) → String
  | [] => ""
  | [(k, v)] => quoteJson k ++ ":" ++ Json.stringify v
  | (k, v) :: rest => quoteJson k ++ ":" ++ Json.stringify v ++ "," ++ stringifyMembers rest

end

mutual

/-- JS `String(v)` coercion on defined values: strings unchanged, arrays
join their elements with commas, plain objects print `[object Object]`. -/
def Json.toJsString : Json → String
  | .null => "null"
  | .bool true => "true"
  | .bool false => "false"
  | .num raw => raw
  | .str s => s
  | .arr xs => joinJsStrings xs
  | .obj _ => "[object Object]"

def joinJsStrings : List Json → String
  | [] => ""
  | [x] => Json.toJsString x
  | x :: xs => Json.toJsString x ++ "," ++ joinJsStrings xs

end

/-- JS string coercion of a possibly-`undefined` value, as performed by
`localStorage.setItem` and template literals. -/
def jsToString : Option Json → String
  | none => "undefined"
  | some v => v.toJsString

/-- Truthiness of a possibly-absent string, as `localStorage.getItem`
results and query parameters are tested: `null` (here `none`) and the
empty string are falsy, every other string truthy. -/
def jsTruthyStr : Option String → Bool
  | none => false
  | some s => s ≠ ""

/-- ASCII whitespace removed by forgiving base64 (`atob`). -/
def isB64Ws (c : Char) : Bool :=
  c.toNat = 9 ∨ c.toNat = 10 ∨ c.toNat = 12 ∨ c.toNat = 13 ∨ c.toNat = 32

/-- Value of a base64 alphabet character. -/
def b64Val (c : Char) : Option Nat :=
  let n := c.toNat
  if 65 ≤ n ∧ n ≤ 90 then some (n - 65)
  else if 97 ≤ n ∧ n ≤ 122 then some (n - 97 + 26)
  else if 48 ≤ n ∧ n ≤ 57 then some (n - 48 + 52)
  else if c = '+' then some 62
  else if c = '/' then some 63
  else none

/-- Strip at most two trailing `=` padding characters. -/
def dropB64Pad (cs : List Char) : List Char :=
  let r := cs.reverse
  let r := if r.headD ' ' = '=' then r.tail else r
  let r := if r.headD ' ' = '=' then r.tail else r
  r.reverse

/-- Convert base64 sextet values to output bytes, discarding the spare
bits of a trailing chunk of two or three characters. -/
def sextetsToBytes : List Nat → List Nat
  | a :: b :: c :: d :: rest =>
      (a * 4 + b / 16) :: ((b % 16) * 16 + c / 4) :: ((c % 4) * 64 + d) :: sextetsToBytes rest
  | [a, b] => [a * 4 + b / 16]
  | [a, b, c] => [a * 4 + b / 16, (b % 16) * 16 + c / 4]
  | _ => []

/-- `atob`, to the byte values of the resulting binary string: forgiving
base64 — strip ASCII whitespace, then up to two trailing `=` when the
length is a multiple of four; fail on a remainder of one or on any
character outside the alphabet. -/
def atobBytes (s : String) : Option (List Nat) :=
  let data := s.data.filter (fun c => ¬ isB64Ws c)
  let data := if data.length % 4 = 0 then dropB64Pad data else data
  if data.length % 4 = 1 then none
  else (data.mapM b64Val).map sextetsToBytes

/-- `atob` as a JS binary string (each byte one latin-1 character). -/
def atobString (s : String) : Option String :=
  (atobBytes s).map (fun bs => String.mk (bs.map Char.ofNat))

/-- Base64 alphabet character for a sextet value. -/
def b64Char (n : Nat) : Char :=
  if n < 26 then Char.ofNat (65 + n)
  else if n < 52 then Char.ofNat (97 + n - 26)
  else if n < 62 then Char.ofNat (48 + n - 52)
  else if n = 62 then '+'
  else '/'

/-- Base64-encode a byte list with `=` padding. -/
def encodeB64 : List Nat → String
  | b1 :: b2 :: b3 :: rest =>
      String.mk [b64Char (b1 / 4), b64Char ((b1 % 4) * 16 + b2 / 16),
                 b64Char ((b2 % 16) * 4 + b3 / 64), b64Char (b3 % 64)] ++ encodeB64 rest
  | [b1, b2] => String.mk [b64Char (b1 / 4), b64Char ((b1 % 4) * 16 + b2 / 16),
                           b64Char ((b2 % 16) * 4), '=']
  | [b1] => String.mk [b64Char (b1 / 4), b64Char ((b1 % 4) * 16), '=', '=']
  | [] => ""

/-- `btoa`: base64-encode a JS string of latin-1 characters; throws (here
`none`) when a character is outside the latin-1 range. -/
def btoa (s : String) : Option String :=
  if s.data.all (fun c => c.toNat < 256) then some (encodeB64 (s.data.map Char.toNat))
  else none

/-- UTF-8 decode a byte list (the effect of `decodeURIComponent` on the
percent-encoding of those bytes); `none` on malformed sequences, rejecting
overlong forms, surrogates and out-of-range scalars. -/
def utf8DecodeAux : Nat → List Nat → Option (List Char)
  | _, [] => some []
  | 0, _ :: _ => none
  | fuel + 1, b :: rest =>
    if b < 0x80 then (utf8DecodeAux fuel rest).map (Char.ofNat b :: ·)
    else if b < 0xC2 then none
    else if b < 0xE0 then
      match rest with
      | c :: rest2 =>
        if 0x80 ≤ c ∧ c < 0xC0 then
          (utf8DecodeAux fuel rest2).map (Char.ofNat ((b - 0xC0) * 64 + (c - 0x80)) :: ·)
        else none
      | _ => none
    else if b < 0xF0 then
      match rest with
      | c1 :: c2 :: rest2 =>
        if 0x80 ≤ c1 ∧ c1 < 0xC0 ∧ 0x80 ≤ c2 ∧ c2 < 0xC0 then
          let code := (b - 0xE0) * 4096 + (c1 - 0x80) * 64 + (c2 - 0x80)
          if 0x800 ≤ code ∧ ¬ (0xD800 ≤ code ∧ code ≤ 0xDFFF) then
            (utf8DecodeAux fuel rest2).map (Char.ofNat code :: ·)
          else none
        else none
      | _ => none
    else if b < 0xF5 then
      match rest with
      | c1 :: c2 :: c3 :: rest2 =>
        if 0x80 ≤ c1 ∧ c1 < 0xC0 ∧ 0x80 ≤ c2 ∧ c2 < 0xC0 ∧ 0x80 ≤ c3 ∧ c3 < 0xC0 then
          let code := (b - 0xF0) * 262144 + (c1 - 0x80) * 4096 + (c2 - 0x80) * 64 + (c3 - 0x80)
          if 0x10000 ≤ code ∧ code ≤ 0x10FFFF then
            (utf8DecodeAux fuel rest2).map (Char.ofNat code :: ·)
          else none
        else none
      | _ => none
    else none

/-- UTF-8 decode to a string. -/
def utf8Decode (bs : List Nat) : Option String :=
  (utf8DecodeAux bs.length bs).map String.mk

/-- UTF-8 encode one character. -/
def utf8EncodeChar (c : Char) : List Nat :=
  let n := c.toNat
  if n < 0x80 then [n]
  else if n < 0x800 then [0xC0 + n / 64, 0x80 + n % 64]
  else if n < 0x10000 then [0xE0 + n / 4096, 0x80 + (n / 64) % 64, 0x80 + n % 64]
  else [0xF0 + n / 262144, 0x80 + (n / 4096) % 64, 0x80 + (n / 64) % 64, 0x80 + n % 64]

/-- Characters `encodeURIComponent` leaves unescaped. -/
def uriUnreserved (c : Char) : Bool :=
  c.isAlpha ∨ c.isDigit ∨
    c ∈ ['-', '_', '.', '!', '~', '*', Char.ofNat 39, '(', ')']

/-- `%XX` escape of one byte (uppercase hex). -/
def percentByte (b : Nat) : String :=
  String.mk ['%', hexDigit (b / 16), hexDigit (b % 16)]

/-- `encodeURIComponent`: percent-encode the UTF-8 bytes of every
character outside the unreserved set. -/
def encodeURIComponent (s : String) : String :=
  String.join (s.data.map fun c =>
    if uriUnreserved c then String.mk [c]
    else String.join ((utf8EncodeChar c).map percentByte))

/-- JSON insignificant whitespace. -/
def jsonWs (c : Char) : Bool :=
  c = ' ' ∨ c = '\t' ∨ c = '\n' ∨ c = '\r'

/-- Skip leading JSON whitespace. -/
def skipWs : List Char → List Char
  | [] => []
  | c :: rest => if jsonWs c then skipWs rest else c :: rest

/-- Value of an ASCII hex digit. -/
def hexVal (c : Char) : Option Nat :=
  let n := c.toNat
  if 48 ≤ n ∧ n ≤ 57 then some (n - 48)
  else if 65 ≤ n ∧ n ≤ 70 then some (n - 65 + 10)
  else if 97 ≤ n ∧ n ≤ 102 then some (n - 97 + 10)
  else none

/-- Parse exactly four hex digits (the payload of a `\uXXXX` escape). -/
def parseHex4 : List Char → Option (Nat × List Char)
  | a :: b :: c :: d :: rest =>
    match hexVal a, hexVal b, hexVal c, hexVal d with
    | some va, some vb, some vc, some vd => some (va * 4096 + vb * 256 + vc * 16 + vd, rest)
    | _, _, _, _ => none
  | _ => none

/-- Parse a JSON string body after the opening quote, returning the
content and the input after the closing quote.  Raw control characters
are rejected; the standard escapes are handled; a `\uXXXX` escape is
accepted for non-surrogate code points (a lone surrogate has no
counterpart among Lean characters and no input of this development
carries one). -/
def parseStringBody : Nat → List Char → Option (String × List Char)
  | 0, _ => none
  | _ + 1, [] => none
  | fuel + 1, c :: rest =>
    if c = '"' then some ("", rest)
    else if c = '\\' then
      match rest with
      | [] => none
      | e :: rest2 =>
        let esc : Option (Char × List Char) :=
          if e = '"' then some ('"', rest2)
          else if e = '\\' then some ('\\', rest2)
          else if e = '/' then some ('/', rest2)
          else if e = 'b' then some (Char.ofNat 8, rest2)
          else if e = 'f' then some (Char.ofNat 12, rest2)
          else if e = 'n' then some ('\n', rest2)
          else if e = 'r' then some ('\r', rest2)
          else if e = 't' then some ('\t', rest2)
          else if e = 'u' then
            match parseHex4 rest2 with
            | some (n, rest3) =>
              if 0xD800 ≤ n ∧ n ≤ 0xDFFF then none else some (Char.ofNat n, rest3)
            | none => none
          else none
        match esc with
        | some (ch, rest3) =>
          (parseStringBody fuel rest3).map (fun p => (String.mk [ch] ++ p.1, p.2))
        | none => none
    else if c.toNat < 32 then none
    else (parseStringBody fuel rest).map (fun p => (String.mk [c] ++ p.1, p.2))

/-- Longest prefix of ASCII digits. -/
def spanDigits : List Char → (List Char × List Char)
  | [] => ([], [])
  | c :: rest =>
    if c.isDigit then
      let (ds, r) := spanDigits rest
      (c :: ds, r)
    else ([], c :: rest)

/-- Parse the fraction and exponent tail of a JSON number. -/
def parseNumTail (intPart : List Char) (cs : List Char) : Option (String × List Char) :=
  let fracStep : Option (List Char × List Char) :=
    match cs with
    | '.' :: rest =>
      match spanDigits rest with
      | ([], _) => none
      | (ds, r) => some (intPart ++ '.' :: ds, r)
    | _ => some (intPart, cs)
  match fracStep with
  | none => none
  | some (lex, cs2) =>
    match cs2 with
    | e :: rest =>
      if e = 'e' ∨ e = 'E' then
        let (sign, rest2) :=
          match rest with
          | s :: r => if s = '+' ∨ s = '-' then ([s], r) else ([], rest)
          | [] => ([], rest)
        match spanDigits rest2 with
        | ([], _) => none
        | (ds, r) => some (String.mk (lex ++ e :: sign ++ ds), r)
      else some (String.mk lex, cs2)
    | [] => some (String.mk lex, [])

/-- Parse a JSON number lexeme: optional minus, an integer part with no
leading zero, optional fraction and exponent. -/
def parseNumber (cs : List Char) : Option (String × List Char) :=
  let (neg, cs1) :=
    match cs with
    | '-' :: r => ([('-' : Char)], r)
    | _ => (([] : List Char), cs)
  match cs1 with
  | c :: rest =>
    if c = '0' then parseNumTail (neg ++ ['0']) rest
    else if c.isDigit then
      let (ds, r) := spanDigits rest
      parseNumTail (neg ++ c :: ds) r
    else none
  | [] => none

/-- Insert a parsed object member, overwriting an earlier binding of the
same key as JS object construction does. -/
def insertField (fields : List (String × Json)) (k : String) (v : Json) :
    List (String × Json) :=
  if fields.any (fun kv => kv.1 = k) then
    fields.map (fun kv => if kv.1 = k then (k, v) else kv)
  else fields ++ [(k, v)]

mutual

/-- Parse one JSON value, returning it and the remaining input. -/
def parseValue : Nat → List Char → Option (Json × List Char)
  | 0, _ => none
  | fuel + 1, cs =>
    match skipWs cs with
    | [] => none
    | c :: rest =>
      if c = '"' then
        (parseStringBody (rest.length + 1) rest).map (fun p => (Json.str p.1, p.2))
      else if c = '\x7b' then parseObjRest fuel rest
      else if c = '[' then parseArrRest fuel rest
      else if c = 't' then
        match rest with
        | 'r' :: 'u' :: 'e' :: rest2 => some (Json.bool true, rest2)
        | _ => none
      else if c = 'f' then
        match rest with
        | 'a' :: 'l' :: 's' :: 'e' :: rest2 => some (Json.bool false, rest2)
        | _ => none
      else if c = 'n' then
        match rest with
        | 'u' :: 'l' :: 'l' :: rest2 => some (Json.null, rest2)
        | _ => none
      else (parseNumber (c :: rest)).map (fun p => (Json.num p.1, p.2))

/-- Parse the inside of an array after `[`. -/
def parseArrRest : Nat → List Char → Option (Json × List Char)
  | 0, _ => none
  | fuel + 1, cs =>
    match skipWs cs with
    | ']' :: rest => some (Json.arr [], rest)
    | cs2 => parseElems fuel cs2 []

/-- Parse the comma-separated elements of a non-empty array. -/
def parseElems : Nat → List Char → List Json → Option (Json × List Char)
  | 0, _, _ => none
  | fuel + 1, cs, acc =>
    match parseValue fuel cs with
    | none => none
    | some (v, rest) =>
      match skipWs rest with
      | ',' :: rest2 => parseElems fuel rest2 (acc ++ [v])
      | ']' :: rest2 => some (Json.arr (acc ++ [v]), rest2)
      | _ => none

/-- Parse the inside of an object after the opening brace. -/
def parseObjRest : Nat → List Char → Option (Json × List Char)
  | 0, _ => none
  | fuel + 1, cs =>
    match skipWs cs with
    | '\x7d' :: rest => some (Json.obj [], rest)
    | cs2 => parseMembers fuel cs2 []

/-- Parse the comma-separated members of a non-empty object. -/
def parseMembers : Nat → List Char → List (String × Json) →
    Option (Json × List Char)
  | 0, _, _ => none
  | fuel + 1, cs, acc =>
    match skipWs cs with
    | '"' :: rest =>
      match parseStringBody (rest.length + 1) rest with
      | none => none
      | some (k, rest2) =>
        match skipWs rest2 with
        | ':' :: rest3 =>
          match parseValue fuel rest3 with
          | none => none
          | some (v, rest4) =>
            match skipWs rest4 with
            | ',' :: rest5 => parseMembers fuel rest5 (insertField acc k v)
            | '\x7d' :: rest5 => some (Json.obj (insertField acc k v), rest5)
            | _ => none
        | _ => none
    | _ => none

end

/-- `JSON.parse`: parse a complete JSON document; `none` models the
thrown `SyntaxError`.  The fuel is an upper bound on the nesting work a
document of this length can require. -/
def Json.parse (s : String) : Option Json :=
  match parseValue (2 * s.length + 2) s.data with
  | some (v, rest) => if skipWs rest = [] then some v else none
  | none => none

/-- Split a character list at a separator character; like JS
`String.prototype.split` with a one-character separator, the result is
never empty and keeps empty groups. -/
def splitOnChar (sep : Char) : List Char → List (List Char)
  | [] => [[]]
  | c :: rest =>
    let groups := splitOnChar sep rest
    if c = sep then [] :: groups
    else
      match groups with
      | [] => [[c]]
      | g :: gs => (c :: g) :: gs

/-- JS `token.split('.')`. -/
def jsSplitDot (s : String) : List String :=
  (splitOnChar '.' s.data).map String.mk

/-- JS `s.replace(/x/g, 'y')` for one-character patterns. -/
def replaceChar (pat repl : Char) (s : String) : String :=
  String.mk (s.data.map (fun c => if c = pat then repl else c))

/-- Payload-extraction pipeline shared by both copies of
`decodeTokenPayload` in `auth.jsx`: take the second dot-segment of the
token, undo the base64url character substitutions, `atob` it,
percent-encode every byte and `decodeURIComponent` the result (jointly:
UTF-8 decode), then `JSON.parse`.  Every JS exception on the way is
caught by the surrounding `try` and modelled as `none`. -/
def tokenPayloadJson (token : String) : Option Json :=
  match (jsSplitDot token)[1]? with
  | none => none
  | some base64Url =>
    let base64 := replaceChar '_' '/' (replaceChar '-' '+' base64Url)
    match atobBytes base64 with
    | none => none
    | some bytes =>
      match utf8Decode bytes with
      | none => none
      | some jsonPayload => Json.parse jsonPayload

/-- Result shape of the module-level `decodeTokenPayload` in `auth.jsx`
(the copy used by `apiClient.request`).  Fields hold the raw payload
values; `none` is JS `undefined`. -/
structure ApiUser where
  id : Option Json
  email : Option Json
  name : Option Json
  username : Option Json
  roles : Json
  tenant_slug : Option Json
  tenant_name : Option Json
deriving Repr

/-- Field extraction of the module-level `decodeTokenPayload`. -/
def mkApiUser (payload : Json) : ApiUser :=
  { id := payload.getField "sub"
    email := jsOr (payload.getField "email") (payload.getField "preferred_username")
    name := jsOr (payload.getField "name") (payload.getField "preferred_username")
    username := payload.getField "preferred_username"
    roles := jsOrElse ((payload.getField "realm_access").bind (·.getField "roles")) (Json.arr [])
    tenant_slug := payload.getField "tenant"
    tenant_name := payload.getField "tenant_name" }

/-- Module-level `decodeTokenPayload` (`auth.jsx`, the copy next to
`apiClient`): structural parse of the credential, `none` on any
malformed input (`DecodeError`).  A payload of literal `null` makes the
first property access throw, which the handler also turns into `none`. -/
def decodeTokenPayload (token : String) : Option ApiUser :=
  match tokenPayloadJson token with
  | some Json.null => none
  | some payload => some (mkApiUser payload)
  | none => none

namespace AuthProvider

/-- Result shape of the `decodeTokenPayload` defined inside
`AuthProvider` (used by `login` and `refreshAccessToken`).  Its `tenant`
field carries the JS default `payload.tenant || " "`. -/
structure User where
  id : Option Json
  email : Option Json
  name : Option Json
  username : Option Json
  roles : Json
  tenant : Json
deriving Repr

/-- Field extraction of `AuthProvider`'s `decodeTokenPayload`; the
`tenant` default is the one-space string `" "`, not the empty string. -/
def mkUser (payload : Json) : User :=
  { id := payload.getField "sub"
    email := jsOr (payload.getField "email") (payload.getField "preferred_username")
    name := jsOr (payload.getField "name") (payload.getField "preferred_username")
    username := payload.getField "preferred_username"
    roles := jsOrElse ((payload.getField "realm_access").bind (·.getField "roles")) (Json.arr [])
    tenant := jsOrElse (payload.getField "tenant") (Json.str " ") }

/-- `AuthProvider`'s `decodeTokenPayload`. -/
def decodeTokenPayload (token : String) : Option User :=
  match tokenPayloadJson token with
  | some Json.null => none
  | some payload => some (mkUser payload)
  | none => none

end AuthProvider

/-- The `localStorage` keys the authentication code reads and writes.
`none` means the key is absent. -/
structure Storage where
  access_token : Option String
  refresh_token : Option String
  current_tenant : Option String
  user : Option String
deriving Repr, DecidableEq

/-- The empty browser store. -/
def Storage.empty : Storage :=
  { access_token := none, refresh_token := none, current_tenant := none, user := none }

/-- The serialized `tenantInfo` object `\x7bslug, name\x7d` that the client
writes to the `current_tenant` key. -/
def tenantInfoString (slug name : Json) : String :=
  Json.stringify (Json.obj [("slug", slug), ("name", name)])

namespace AuthProvider

/-- `logout` (`auth.jsx`): its storage effect removes the two credential
keys.  (`current_tenant` and `user` are not removed; the Keycloak
logout request does not touch storage.) -/
def logout (st : Storage) : Storage :=
  { st with access_token := none, refresh_token := none }

/-- `login` (`auth.jsx`, the active version).  The Keycloak token
response is `none` when `response.ok` is false or the network call
throws (the `catch` returns `success: false` with storage untouched),
otherwise the parsed body.  On success the two credentials are stored,
and the tenant binding is stored only when the decoded token carries a
truthy `tenant` claim — never from the response body. -/
def login (st : Storage) (resp : Option Json) : Storage × Bool :=
  match resp with
  | none => (st, false)
  | some data =>
    let tok := jsToString (data.getField "access_token")
    let st1 := { st with
      access_token := some tok
      refresh_token := some (jsToString (data.getField "refresh_token")) }
    match decodeTokenPayload tok with
    | none => (st1, true)
    | some u =>
      let name := if u.tenant.truthy then u.tenant else Json.str "Default Tenant"
      if u.tenant.truthy then
        ({ st1 with current_tenant := some (tenantInfoString u.tenant name) }, true)
      else (st1, true)

/-- `refreshAccessToken` (`auth.jsx`, the active version).  The guard is
JS truthiness, `if (!storedRefresh)`: an absent key and a stored empty
string alike fall through to `logout` and return `null`, as does a token
endpoint answering non-ok or a throwing call (`resp = none`); on success
it stores the new credentials, re-derives the tenant from the decoded
new token when present, and returns the new access token. -/
def refreshAccessToken (st : Storage) (resp : Option Json) : Storage × Option String :=
  if ¬ jsTruthyStr st.refresh_token then (logout st, none)
  else
    match resp with
    | none => (logout st, none)
    | some data =>
      let tok := jsToString (data.getField "access_token")
      let st1 := { st with
        access_token := some tok
        refresh_token := some (jsToString (data.getField "refresh_token")) }
      match decodeTokenPayload tok with
      | none => (st1, some tok)
      | some u =>
        if u.tenant.truthy then
          ({ st1 with current_tenant := some (tenantInfoString u.tenant u.tenant) }, some tok)
        else (st1, some tok)

end AuthProvider

/-- The two request headers the gateways manage. -/
structure Headers where
  authorization : Option String
  xTenantId : Option String
deriving Repr, DecidableEq

/-- A dispatched request's answer: HTTP status and the parsed JSON body
(`none` when `response.json()` rejects). -/
structure HttpResponse where
  status : Nat
  body : Option Json
deriving Repr

/-- `response.ok`: status in the 2xx range. -/
def httpOk (status : Nat) : Bool :=
  200 ≤ status ∧ status ≤ 299

/-- Read the stored tenant as both gateways do: ignore an absent,
empty, `"undefined"` or `"null"` string, otherwise `JSON.parse` it with
a parse failure leaving the tenant null. -/
def parseStoredTenant : Option String → Option Json
  | none => none
  | some s =>
    if s ≠ "" ∧ s ≠ "undefined" ∧ s ≠ "null" then Json.parse s else none

/-- The `X-Tenant-ID` header value: present exactly when `tenant?.slug`
is truthy, string-coerced on send. -/
def tenantHeader (tenant : Option Json) : Option String :=
  let slug := tenant.bind (·.getField "slug")
  if jsTruthy slug then some (jsToString slug) else none

/-- Message of the error thrown by `apiClient.request` on a non-ok
response: `error.detail || 'Request failed'` where a body parse failure
substitutes `\x7bdetail: 'Request failed'\x7d`. -/
def errorDetailMsg (body : Option Json) : String :=
  let error := body.getD (Json.obj [("detail", Json.str "Request failed")])
  (jsOrElse (error.getField "detail") (Json.str "Request failed")).toJsString

/-- How a gateway call in `auth.jsx` ends. -/
inductive ApiOutcome where
  | success : Json → ApiOutcome
  | jsonError : ApiOutcome
  | thrown : String → ApiOutcome
  | redirectLogin : ApiOutcome
deriving Repr

/-- Whether the outcome returned a body to the caller. -/
def ApiOutcome.isSuccess : ApiOutcome → Bool
  | .success _ => true
  | _ => false

/-- Network answers available to one `apiClient.request` call: the first
dispatch's response, the token endpoint's answer were it consulted
(`none` = non-ok or network failure), and the retried dispatch's
response were it sent. -/
structure GatewayEnv where
  first : HttpResponse
  refresh : Option Json
  retry : HttpResponse
deriving Repr

/-- Observable effect of one `apiClient.request` call: final storage and
outcome, how many times the caller's request was dispatched, how many
refresh-grant requests went to the token endpoint, and the headers of
each dispatch. -/
structure GatewayResult where
  store : Storage
  outcome : ApiOutcome
  dispatches : Nat
  refreshCalls : Nat
  firstHeaders : Headers
  retryHeaders : Option Headers
deriving Repr

/-- Shared tail of `apiClient.request`: the `!response.ok` check and the
final `response.json()`. -/
def finishResponse (r : HttpResponse) : ApiOutcome :=
  if httpOk r.status then
    match r.body with
    | some b => .success b
    | none => .jsonError
  else .thrown (errorDetailMsg r.body)

namespace apiClient

/-- `apiClient.request` (`auth.jsx`, the active version).  The bearer
header is attached under the JS truthiness test `if (accessToken)` — an
absent key and a stored empty string alike leave it off, and neither
stops the dispatch.  On a 401 first answer, `if (refreshToken)` (again
truthiness) gates the renewal path: with no truthy refresh credential,
redirect to login and throw with no refresh grant (storage untouched);
otherwise send one refresh grant; if it fails, redirect to login and
throw (storage untouched); if it succeeds, store the new credentials,
re-derive the tenant from the decoded new token when present, rebuild
the headers and retry exactly once, whose answer then flows through the
ordinary `!response.ok` handling (a second 401 surfaces as the thrown
error, with no further renewal or dispatch).  Extra caller-supplied
headers are not modelled; no claim concerns them. -/
def request (st : Storage) (env : GatewayEnv) : GatewayResult :=
  let tenant := parseStoredTenant st.current_tenant
  let headers : Headers :=
    { authorization :=
        if jsTruthyStr st.access_token then some ("Bearer " ++ st.access_token.getD "")
        else none
      xTenantId := tenantHeader tenant }
  if env.first.status = 401 then
    if jsTruthyStr st.refresh_token then
      match env.refresh with
      | none =>
        { store := st, outcome := .redirectLogin, dispatches := 1, refreshCalls := 1,
          firstHeaders := headers, retryHeaders := none }
      | some data =>
        let tok := jsToString (data.getField "access_token")
        let st1 := { st with
          access_token := some tok
          refresh_token := some (jsToString (data.getField "refresh_token")) }
        let upd : Storage × Headers :=
          match decodeTokenPayload tok with
          | some u =>
            if jsTruthy u.tenant_slug then
              let slug := u.tenant_slug.getD Json.null
              let name := jsOrElse u.tenant_name slug
              ({ st1 with current_tenant := some (tenantInfoString slug name) },
               { headers with xTenantId := some slug.toJsString })
            else (st1, headers)
          | none => (st1, headers)
        let retryHeaders := { upd.2 with authorization := some ("Bearer " ++ tok) }
        { store := upd.1, outcome := finishResponse env.retry, dispatches := 2, refreshCalls := 1,
          firstHeaders := headers, retryHeaders := some retryHeaders }
    else
      { store := st, outcome := .redirectLogin, dispatches := 1, refreshCalls := 0,
        firstHeaders := headers, retryHeaders := none }
  else
    { store := st, outcome := finishResponse env.first, dispatches := 1, refreshCalls := 0,
      firstHeaders := headers, retryHeaders := none }

/-- A batch of gateway calls, run in sequence (the JS event loop
interleaves their awaits, but the code shares no renewal state between
calls, so each call's refresh-grant count is its own); the second
component totals the refresh-grant requests sent. -/
def runCalls (st : Storage) (envs : List GatewayEnv) : Storage × Nat :=
  match envs with
  | [] => (st, 0)
  | e :: rest =>
    let r := request st e
    let tail := runCalls r.store rest
    (tail.1, r.refreshCalls + tail.2)

end apiClient

namespace ApiClient

/-- How an `ApiClient.request` (`utils/apiClient.js`) call ends. -/
inductive Outcome where
  | noToken : Outcome
  | success : Json → Outcome
  | jsonError : Outcome
  | authExpired : Outcome
  | thrown : String → Outcome
deriving Repr

/-- Observable effect of one `ApiClient.request` call. -/
structure Result where
  store : Storage
  outcome : Outcome
  dispatches : Nat
  headers : Option Headers
deriving Repr

/-- Message of the error thrown on a non-ok, non-401 response:
`errorData.detail || errorData.error?.message || 'Request failed with
status N'`. -/
def classErrorMsg (body : Option Json) (status : Nat) : String :=
  let errorData := body.getD (Json.obj [])
  (jsOrElse
    (jsOr (errorData.getField "detail")
          ((errorData.getField "error").bind (·.getField "message")))
    (Json.str ("Request failed with status " ++ toString status))).toJsString

/-- `ApiClient.request` (`utils/apiClient.js`): the guard is JS
truthiness, `if (!accessToken)` — with no truthy stored access token
(absent key or stored empty string) it throws before any dispatch;
otherwise it sends once with bearer and tenant headers; a 401 clears
both stored credentials and redirects to login; any other non-ok status
throws; an ok response returns its parsed body. -/
def request (st : Storage) (resp : HttpResponse) : Result :=
  if ¬ jsTruthyStr st.access_token then
    { store := st, outcome := .noToken, dispatches := 0, headers := none }
  else
    let tok := st.access_token.getD ""
    let tenant := parseStoredTenant st.current_tenant
    let headers : Headers :=
      { authorization := some ("Bearer " ++ tok), xTenantId := tenantHeader tenant }
    if httpOk resp.status then
      match resp.body with
      | some b =>
        { store := st, outcome := .success b, dispatches := 1, headers := some headers }
      | none => { store := st, outcome := .jsonError, dispatches := 1, headers := some headers }
    else if resp.status = 401 then
      { store := { st with access_token := none, refresh_token := none },
        outcome := .authExpired, dispatches := 1, headers := some headers }
    else
      { store := st, outcome := .thrown (classErrorMsg resp.body resp.status),
        dispatches := 1, headers := some headers }

end ApiClient

namespace AcceptInvitationPage

/-- `handleSsoLogin` (invitation acceptance page): the opaque `state`
sent to the identity provider — `btoa(JSON.stringify(\x7binvitation_token,
return_url\x7d))`.  Nothing persists this value for later comparison. -/
def ssoState (invitationToken : String) (origin : String) : Option String :=
  btoa (Json.stringify (Json.obj
    [("invitation_token", Json.str invitationToken), ("return_url", Json.str origin)]))

/-- The Keycloak authorization URL `handleSsoLogin` redirects to, with
the optional identity-provider hint; `none` when `btoa` throws (the
`catch` shows an error instead of redirecting). -/
def authUrl (invitationToken : String) (origin : String) (idpHint : Option String) :
    Option String :=
  (ssoState invitationToken origin).map (fun state =>
    "http://localhost:8080/realms/agentic/protocol/openid-connect/auth?" ++
    "client_id=agentic-frontend&" ++
    "redirect_uri=" ++ encodeURIComponent (origin ++ "/auth/callback") ++ "&" ++
    "response_type=code&" ++
    "scope=openid%20email%20profile&" ++
    "state=" ++ encodeURIComponent state ++
    (match idpHint with
     | some alias_ => "&kc_idp_hint=" ++ alias_
     | none => ""))

end AcceptInvitationPage

namespace SSOCallbackPage

/-- Invitation token recovered from the round-tripped `state` parameter:
`JSON.parse(atob(state))` inside a `try` whose failure merely leaves the
token null, then the `invitation_token` property.  No comparison against
any previously sent state happens anywhere. -/
def stateInvitationToken (state : Option String) : Option Json :=
  match state with
  | none => none
  | some s =>
    if s = "" then none
    else
      match atobString s with
      | none => none
      | some decoded =>
        match Json.parse decoded with
        | none => none
        | some stateData => stateData.getField "invitation_token"

/-- The backend URL `handleCallback` posts to: the code always, the
invitation token only when one was recovered from `state`. -/
def callbackUrl (code : String) (invToken : Option Json) : String :=
  let base := "/api/v1/auth/sso/callback?code=" ++ encodeURIComponent code
  if jsTruthy invToken then
    base ++ "&invitation_token=" ++ encodeURIComponent (jsToString invToken)
  else base

/-- Observable effect of one `handleCallback` run: final storage,
whether the success branch was reached (`false` = the catch branch, the
user is sent back to the login page), the backend URL called when the
call was dispatched, and the `invitation_accepted` flag that picks the
navigation branch. -/
structure Result where
  store : Storage
  ok : Bool
  calledUrl : Option String
  invitationAccepted : Bool
deriving Repr

/-- `handleCallback` (`SSOCallbackPage.jsx`).  Query parameters are
`none` when absent.  The backend is a function from the called URL to
`none` (non-ok answer, unparsable body or network failure — all of which
throw into the catch branch) or the parsed response body.  On success:
the access token is stored unconditionally; the refresh token, the
tenant — taken from `data.user.tenant`, i.e. the response body — and
the serialized user are stored when truthy. -/
def handleCallback (st : Storage) (codeParam stateParam errorParam : Option String)
    (backend : String → Option Json) : Result :=
  if jsTruthyStr errorParam then
    { store := st, ok := false, calledUrl := none, invitationAccepted := false }
  else if ¬ jsTruthyStr codeParam then
    { store := st, ok := false, calledUrl := none, invitationAccepted := false }
  else
    let code := codeParam.getD ""
    let invToken := stateInvitationToken stateParam
    let url := callbackUrl code invToken
    match backend url with
    | none => { store := st, ok := false, calledUrl := some url, invitationAccepted := false }
    | some data =>
      let st1 := { st with access_token := some (jsToString (data.getField "access_token")) }
      let st2 :=
        if jsTruthy (data.getField "refresh_token") then
          { st1 with refresh_token := some (jsToString (data.getField "refresh_token")) }
        else st1
      let userTenant := (data.getField "user").bind (·.getField "tenant")
      let st3 :=
        if jsTruthy userTenant then
          let t := userTenant.getD Json.null
          { st2 with current_tenant := some (tenantInfoString t t) }
        else st2
      let st4 :=
        if jsTruthy (data.getField "user") then
          { st3 with user := some (Json.stringify ((data.getField "user").getD Json.null)) }
        else st3
      { store := st4, ok := true, calledUrl := some url,
        invitationAccepted := jsTruthy (data.getField "invitation_accepted") }

end SSOCallbackPage

/-- Modelled from the spec: the server-side invitation record (§3) with
its `tenantId`.  The repository's `src` holds only the client pages and
a users-table migration, not the server-side invitation state machine;
this record exists solely to state the tenant-match requirement of the
handshake's `done` state against the client code. -/
structure Invitation where
  email : String
  tenantId : String
  token : String
  status : String
  expiresAt : Nat
deriving Repr, DecidableEq

/-- Is this JSON value the literal `null`? -/
def Json.isNull : Json → Bool
  | .null => true
  | _ => false

/-- A well-formed credential whose payload is the empty JSON object:
header and signature segments are opaque, the payload segment is the
base64 of `JSON.stringify(\x7b\x7d)`. -/
def tokenEmptyPayload : String :=
  "h." ++ (btoa (Json.stringify (Json.obj []))).getD "" ++ ".s"

/-- A token-endpoint success body. -/
def refreshOkBody : Json :=
  Json.obj [("access_token", Json.str "new"), ("refresh_token", Json.str "newr")]

/-- One gateway call's network answers: first dispatch rejected with
401, refresh grant succeeds, retry succeeds. -/
def env401 : GatewayEnv :=
  { first := { status := 401, body := none }
    refresh := some refreshOkBody
    retry := { status := 200, body := some (Json.obj []) } }

/-- A non-success answer of status 401 has a non-success outcome under
the shared response handling. -/
theorem isSuccess_finishResponse_401 (r : HttpResponse) (h : r.status = 401) :
    (finishResponse r).isSuccess = false := by
  unfold finishResponse
  rw [h]
  simp [httpOk, ApiOutcome.isSuccess]

/-- C2: for every gateway call (`apiClient.request`, `auth.jsx`) the
original request is dispatched at most twice and at most one refresh
grant is sent, and when both the first and the retried dispatch answer
401 the call surfaces a failure (the thrown error standing for
`SessionExpired`) rather than any third network attempt. -/
theorem request_renew_once_retry_once (st : Storage) (env : GatewayEnv) :
    (apiClient.request st env).dispatches ≤ 2 ∧
    (apiClient.request st env).refreshCalls ≤ 1 ∧
    (env.first.status = 401 → env.retry.status = 401 →
      (apiClient.request st env).outcome.isSuccess = false) := by
  unfold apiClient.request
  by_cases h1 : env.first.status = 401
  · rw [if_pos h1]
    by_cases hrt : jsTruthyStr st.refresh_token = true
    · rw [if_pos hrt]
      cases env.refresh with
      | none => exact ⟨Nat.le_succ 1, Nat.le_refl 1, fun _ _ => rfl⟩
      | some data =>
        exact ⟨Nat.le_refl 2, Nat.le_refl 1,
          fun _ h2 => isSuccess_finishResponse_401 env.retry h2⟩
    · rw [if_neg hrt]
      exact ⟨Nat.le_succ 1, Nat.zero_le 1, fun _ _ => rfl⟩
  · rw [if_neg h1]
    exact ⟨Nat.le_succ 1, Nat.zero_le 1, fun hc _ => absurd hc h1⟩

/-- A session whose credentials are both present. -/
def stSession : Storage :=
  { Storage.empty with access_token := some "a", refresh_token := some "r" }

/-- Network answers where the first dispatch and the retried dispatch
both answer 401 and the refresh grant succeeds. -/
def envDouble401 : GatewayEnv :=
  { first := { status := 401, body := none }
    refresh := some refreshOkBody
    retry := { status := 401, body := none } }

/-- Witness for C2 at a concrete double-401 call. -/
theorem request_renew_once_retry_once_witness :
    (apiClient.request stSession envDouble401).dispatches ≤ 2 ∧
    (apiClient.request stSession envDouble401).refreshCalls ≤ 1 ∧
    (apiClient.request stSession envDouble401).outcome.isSuccess = false := by
  have h := request_renew_once_retry_once stSession envDouble401
  exact ⟨h.1, h.2.1, h.2.2 rfl rfl⟩

/-- Helper for the renewal count: under the 401-refresh-success
environment, a call whose stored refresh credential passes the JS
truthiness guard `if (refreshToken)` performs exactly one refresh grant
and leaves a truthy refresh credential in place. -/
theorem request_env401_step (st : Storage) (h : jsTruthyStr st.refresh_token = true) :
    jsTruthyStr (apiClient.request st env401).store.refresh_token = true ∧
    (apiClient.request st env401).refreshCalls = 1 := by
  unfold apiClient.request
  rw [if_pos (show env401.first.status = 401 from rfl), if_pos h]
  exact ⟨rfl, rfl⟩

/-- Helper: a batch of `n` gateway calls that each observe a 401 and
each successfully renew performs `n` refresh grants in total. -/
theorem runCalls_replicate (st : Storage) (n : Nat) (h : jsTruthyStr st.refresh_token = true) :
    (apiClient.runCalls st (List.replicate n env401)).2 = n := by
  induction n generalizing st with
  | zero => simp [apiClient.runCalls]
  | succ k ih =>
    rw [List.replicate_succ]
    unfold apiClient.runCalls
    have hp := request_env401_step st h
    dsimp only
    rw [hp.2, ih _ hp.1]
    omega

/-- C3 counterexample: two gateway calls issued while the access
credential is expired (both observe 401) send two refresh-grant
requests to the identity provider, not exactly one. -/
theorem two_calls_two_refresh_grants :
    (apiClient.runCalls stSession [env401, env401]).2 = 2 ∧
    ¬ (apiClient.runCalls stSession [env401, env401]).2 = 1 := by
  constructor
  · rfl
  · intro h
    have h2 : (2 : Nat) = 1 := by
      have he : (apiClient.runCalls stSession [env401, env401]).2 = 2 := rfl
      rw [he] at h
      exact h
    exact absurd h2 (by decide)

/-- C3 amended: `apiClient.request` shares no in-flight renewal between
calls — every call that observes a 401 while its stored refresh
credential passes the JS truthiness guard `if (refreshToken)` performs
its own refresh grant, so `n` such calls perform `n` renewals rather
than one. -/
theorem each_call_renews_itself :
    (∀ st env, env.first.status = 401 → jsTruthyStr st.refresh_token = true →
      (apiClient.request st env).refreshCalls = 1) ∧
    (∀ st n, jsTruthyStr st.refresh_token = true →
      (apiClient.runCalls st (List.replicate n env401)).2 = n) := by
  constructor
  · intro st env h1 h2
    unfold apiClient.request
    rw [if_pos h1, if_pos h2]
    cases env.refresh with
    | none => rfl
    | some data => rfl
  · intro st n h
    exact runCalls_replicate st n h

/-- Witness for the amended C3 at a concrete session and batch. -/
theorem each_call_renews_itself_witness :
    (apiClient.request stSession env401).refreshCalls = 1 ∧
    (apiClient.runCalls stSession (List.replicate 2 env401)).2 = 2 :=
  ⟨each_call_renews_itself.1 stSession env401 rfl rfl,
   each_call_renews_itself.2 stSession 2 rfl⟩

/-- Network answers where the first dispatch answers 401 and the
refresh grant fails. -/
def envRefreshFail : GatewayEnv :=
  { first := { status := 401, body := none }
    refresh := none
    retry := { status := 200, body := none } }

/-- C6 counterexample: when the gateway's inline renewal fails, the user
is routed to login but the persisted credentials are NOT cleared — the
stored access and refresh tokens survive. -/
theorem gateway_renewal_failure_keeps_credentials :
    (apiClient.request stSession envRefreshFail).outcome = ApiOutcome.redirectLogin ∧
    (apiClient.request stSession envRefreshFail).store.access_token = some "a" ∧
    (apiClient.request stSession envRefreshFail).store.refresh_token = some "r" :=
  ⟨rfl, rfl, rfl⟩

/-- C6 amended: a failed renewal is never retried (at most one refresh
grant per call).  `AuthProvider.refreshAccessToken` reacts to failure
with `logout`, which does clear both persisted credentials; but the
gateway's inline renewal failure routes to login with storage left
untouched. -/
theorem renewal_failure_paths (st : Storage) (env : GatewayEnv)
    (h1 : env.first.status = 401) (h2 : env.refresh = none) :
    ((AuthProvider.refreshAccessToken st none).1.access_token = none ∧
     (AuthProvider.refreshAccessToken st none).1.refresh_token = none ∧
     (AuthProvider.refreshAccessToken st none).2 = none) ∧
    ((apiClient.request st env).outcome = ApiOutcome.redirectLogin ∧
     (apiClient.request st env).store = st ∧
     (apiClient.request st env).refreshCalls ≤ 1) := by
  constructor
  · by_cases hr : jsTruthyStr st.refresh_token = true
    · unfold AuthProvider.refreshAccessToken
      rw [if_neg (show ¬ ¬ (jsTruthyStr st.refresh_token = true) from fun hn => hn hr)]
      exact ⟨rfl, rfl, rfl⟩
    · unfold AuthProvider.refreshAccessToken
      rw [if_pos hr]
      exact ⟨rfl, rfl, rfl⟩
  · unfold apiClient.request
    rw [if_pos h1]
    by_cases hrt : jsTruthyStr st.refresh_token = true
    · rw [if_pos hrt]
      dsimp only
      rw [h2]
      exact ⟨rfl, rfl, Nat.le_refl 1⟩
    · rw [if_neg hrt]
      exact ⟨rfl, rfl, Nat.zero_le 1⟩

/-- Witness for the amended C6 at a concrete session and environment. -/
theorem renewal_failure_paths_witness :
    ((AuthProvider.refreshAccessToken stSession none).1.access_token = none ∧
     (AuthProvider.refreshAccessToken stSession none).1.refresh_token = none ∧
     (AuthProvider.refreshAccessToken stSession none).2 = none) ∧
    ((apiClient.request stSession envRefreshFail).outcome = ApiOutcome.redirectLogin ∧
     (apiClient.request stSession envRefreshFail).store = stSession ∧
     (apiClient.request stSession envRefreshFail).refreshCalls ≤ 1) :=
  renewal_failure_paths stSession envRefreshFail rfl rfl

/-- The tenant binding `login` and `refreshAccessToken` store: re-derived
from decoding the access token, leaving the old value when the token
does not decode or carries no truthy tenant claim. -/
def derivedTenant (old : Option String) (tok : String) : Option String :=
  match AuthProvider.decodeTokenPayload tok with
  | none => old
  | some u => if u.tenant.truthy then some (tenantInfoString u.tenant u.tenant) else old

/-- Helper: `login` stores exactly the tenant derived from the access
token string (the response body enters only through that string). -/
theorem login_current_tenant (st : Storage) (d : Json) :
    (AuthProvider.login st (some d)).1.current_tenant
      = derivedTenant st.current_tenant (jsToString (d.getField "access_token")) := by
  unfold AuthProvider.login derivedTenant
  dsimp only
  cases hdec : AuthProvider.decodeTokenPayload (jsToString (d.getField "access_token")) with
  | none => rfl
  | some u =>
    by_cases ht : u.tenant.truthy
    · simp [ht]
    · simp [ht]

/-- Helper: with a truthy stored refresh credential,
`refreshAccessToken` stores exactly the tenant derived from the new
access token string. -/
theorem refresh_current_tenant (st : Storage) (d : Json)
    (h : jsTruthyStr st.refresh_token = true) :
    (AuthProvider.refreshAccessToken st (some d)).1.current_tenant
      = derivedTenant st.current_tenant (jsToString (d.getField "access_token")) := by
  unfold AuthProvider.refreshAccessToken derivedTenant
  rw [if_neg (show ¬ ¬ (jsTruthyStr st.refresh_token = true) from fun hn => hn h)]
  dsimp only
  cases hdec : AuthProvider.decodeTokenPayload (jsToString (d.getField "access_token")) with
  | none => rfl
  | some u =>
    by_cases ht : u.tenant.truthy
    · simp [ht]
    · simp [ht]

/-- Helper: with a non-empty code, no error parameter and an ok backend
answer, `handleCallback` reaches the success branch, calls the URL built
from the code and whatever invitation token the `state` yields, and
stores the response's access token. -/
theorem handleCallback_backend_ok (st : Storage) (c : String) (sp : Option String)
    (data : Json) (hc : c ≠ "") :
    (SSOCallbackPage.handleCallback st (some c) sp none (fun _ => some data)).ok = true ∧
    (SSOCallbackPage.handleCallback st (some c) sp none (fun _ => some data)).calledUrl
      = some (SSOCallbackPage.callbackUrl c (SSOCallbackPage.stateInvitationToken sp)) ∧
    (SSOCallbackPage.handleCallback st (some c) sp none (fun _ => some data)).store.access_token
      = some (jsToString (data.getField "access_token")) := by
  have hcc : jsTruthyStr (some c) = true := by simp [jsTruthyStr, hc]
  unfold SSOCallbackPage.handleCallback
  rw [show jsTruthyStr (none : Option String) = false from rfl, hcc]
  rw [if_neg (show ¬ (false = true) by simp)]
  rw [if_neg (show ¬ ¬ (true = true) from fun h => h rfl)]
  dsimp only
  refine ⟨rfl, rfl, ?_⟩
  by_cases h1 : jsTruthy ((data.getField "user").bind fun x => x.getField "tenant") = true <;>
    by_cases h2 : jsTruthy (data.getField "refresh_token") = true <;>
      by_cases h3 : jsTruthy (data.getField "user") = true <;>
        simp [h1, h2, h3]

/-- Helper: on the success branch, whatever truthy `user.tenant` the
response body carries is what gets stored as the tenant binding. -/
theorem handleCallback_stores_response_tenant (st : Storage) (c : String) (sp : Option String)
    (data : Json) (t : Json) (hc : c ≠ "")
    (ht : (data.getField "user").bind (·.getField "tenant") = some t)
    (htt : t.truthy = true) :
    (SSOCallbackPage.handleCallback st (some c) sp none (fun _ => some data)).store.current_tenant
      = some (tenantInfoString t t) := by
  have hcc : jsTruthyStr (some c) = true := by simp [jsTruthyStr, hc]
  unfold SSOCallbackPage.handleCallback
  rw [show jsTruthyStr (none : Option String) = false from rfl, hcc]
  rw [if_neg (show ¬ (false = true) by simp)]
  rw [if_neg (show ¬ ¬ (true = true) from fun h => h rfl)]
  dsimp only
  rw [ht]
  simp only [jsTruthy, htt, Option.getD_some]
  split <;> rfl

/-- SSO-callback response bodies: same access credential, different
tenant in the response body's `user` object. -/
def ssoRespEvil : Json :=
  Json.obj [("access_token", Json.str "tok"), ("user", Json.obj [("tenant", Json.str "evil")])]

/-- Same access credential as `ssoRespEvil`, different response tenant. -/
def ssoRespGood : Json :=
  Json.obj [("access_token", Json.str "tok"), ("user", Json.obj [("tenant", Json.str "good")])]

/-- C1 counterexample: the SSO-callback completion stores a tenant taken
from the server response body.  The credential `"tok"` does not decode
at all, yet two callbacks carrying it store two different tenant
bindings — determined by `data.user.tenant`, not by the credential. -/
theorem sso_tenant_from_response_body :
    (SSOCallbackPage.handleCallback Storage.empty (some "c0") none none
        (fun _ => some ssoRespEvil)).store.current_tenant
      = some (tenantInfoString (Json.str "evil") (Json.str "evil")) ∧
    (SSOCallbackPage.handleCallback Storage.empty (some "c0") none none
        (fun _ => some ssoRespGood)).store.current_tenant
      = some (tenantInfoString (Json.str "good") (Json.str "good")) ∧
    AuthProvider.decodeTokenPayload "tok" = none ∧
    decodeTokenPayload "tok" = none :=
  ⟨rfl, rfl, rfl, rfl⟩

/-- C1 amended: `login` and `refreshAccessToken` derive the stored
tenant binding exclusively from decoding the access credential (two
responses with the same `access_token` field and arbitrary other fields
store the same binding), but the SSO-callback completion stores the
tenant from the response body's `user.tenant`. -/
theorem tenant_binding_sources :
    (∀ st d1 d2, d1.getField "access_token" = d2.getField "access_token" →
        (AuthProvider.login st (some d1)).1.current_tenant
          = (AuthProvider.login st (some d2)).1.current_tenant ∧
        (AuthProvider.refreshAccessToken { st with refresh_token := some "r" } (some d1)).1.current_tenant
          = (AuthProvider.refreshAccessToken { st with refresh_token := some "r" } (some d2)).1.current_tenant) ∧
    (∀ st c sp data t, c ≠ "" →
        (data.getField "user").bind (·.getField "tenant") = some t →
        t.truthy = true →
        (SSOCallbackPage.handleCallback st (some c) sp none (fun _ => some data)).store.current_tenant
          = some (tenantInfoString t t)) := by
  constructor
  · intro st d1 d2 h
    constructor
    · rw [login_current_tenant, login_current_tenant, h]
    · rw [refresh_current_tenant { st with refresh_token := some "r" } d1 rfl,
          refresh_current_tenant { st with refresh_token := some "r" } d2 rfl, h]
  · intro st c sp data t hc ht htt
    exact handleCallback_stores_response_tenant st c sp data t hc ht htt

/-- Token responses with one access credential but contradictory extra
fields, for the C1 witness. -/
def tokenRespSpoofed : Json :=
  Json.obj [("access_token", Json.str "tokA"), ("tenant", Json.str "spoof")]

/-- Same credential, no spoofed tenant field. -/
def tokenRespPlain : Json :=
  Json.obj [("access_token", Json.str "tokA")]

/-- Witness for the amended C1 at concrete responses. -/
theorem tenant_binding_sources_witness :
    ((AuthProvider.login Storage.empty (some tokenRespSpoofed)).1.current_tenant
       = (AuthProvider.login Storage.empty (some tokenRespPlain)).1.current_tenant ∧
     (AuthProvider.refreshAccessToken { Storage.empty with refresh_token := some "r" }
         (some tokenRespSpoofed)).1.current_tenant
       = (AuthProvider.refreshAccessToken { Storage.empty with refresh_token := some "r" }
           (some tokenRespPlain)).1.current_tenant) ∧
    (SSOCallbackPage.handleCallback Storage.empty (some "c0") none none
        (fun _ => some ssoRespEvil)).store.current_tenant
      = some (tenantInfoString (Json.str "evil") (Json.str "evil")) :=
  ⟨tenant_binding_sources.1 Storage.empty tokenRespSpoofed tokenRespPlain rfl,
   tenant_binding_sources.2 Storage.empty "c0" none ssoRespEvil (Json.str "evil")
     (by decide) rfl rfl⟩

/-- The `state` value `handleSsoLogin` would send for invitation token
`inv1`. -/
def sentState : String :=
  (AcceptInvitationPage.ssoState "inv1" "http://localhost:5173").getD ""

/-- An invitation record targeting tenant `t2`. -/
def invC5 : Invitation :=
  { email := "alice@x.com", tenantId := "t2", token := "inv1",
    status := "pending", expiresAt := 9999 }

/-- A callback response whose credential/user belongs to tenant `t1`. -/
def ssoRespT1 : Json :=
  Json.obj [("access_token", Json.str "tok"), ("user", Json.obj [("tenant", Json.str "t1")])]

/-- C5 counterexample: a callback presenting `invC5`'s invitation token
whose resulting tenant (`t1`) differs from the invitation's tenant
(`t2`) still completes the handshake and binds `t1` — it does not
transition to `failed`. -/
theorem handshake_completes_despite_tenant_mismatch :
    invC5.tenantId = "t2" ∧
    (SSOCallbackPage.handleCallback Storage.empty (some "c0") (some sentState) none
        (fun _ => some ssoRespT1)).calledUrl
      = some (SSOCallbackPage.callbackUrl "c0" (some (Json.str invC5.token))) ∧
    (SSOCallbackPage.handleCallback Storage.empty (some "c0") (some sentState) none
        (fun _ => some ssoRespT1)).ok = true ∧
    (SSOCallbackPage.handleCallback Storage.empty (some "c0") (some sentState) none
        (fun _ => some ssoRespT1)).store.current_tenant
      = some (tenantInfoString (Json.str "t1") (Json.str "t1")) ∧
    ("t1" : String) ≠ invC5.tenantId :=
  ⟨rfl, rfl, rfl, rfl, by decide⟩

/-- C5 amended: the callback never consults the invitation record — for
every invitation and every truthy response tenant it completes the
session and binds the response's tenant, with no comparison against the
invitation's `tenantId`. -/
theorem handshake_binds_response_tenant_unchecked (inv : Invitation) (st : Storage)
    (c : String) (data : Json) (t : Json) (hc : c ≠ "")
    (ht : (data.getField "user").bind (·.getField "tenant") = some t)
    (htt : t.truthy = true) :
    (SSOCallbackPage.handleCallback st (some c)
        (some ((AcceptInvitationPage.ssoState inv.token "http://localhost:5173").getD "")) none
        (fun _ => some data)).ok = true ∧
    (SSOCallbackPage.handleCallback st (some c)
        (some ((AcceptInvitationPage.ssoState inv.token "http://localhost:5173").getD "")) none
        (fun _ => some data)).store.current_tenant = some (tenantInfoString t t) :=
  ⟨(handleCallback_backend_ok st c _ data hc).1,
   handleCallback_stores_response_tenant st c _ data t hc ht htt⟩

/-- Witness for the amended C5 at the mismatching concrete instance. -/
theorem handshake_binds_response_tenant_unchecked_witness :
    (SSOCallbackPage.handleCallback Storage.empty (some "c0")
        (some ((AcceptInvitationPage.ssoState invC5.token "http://localhost:5173").getD "")) none
        (fun _ => some ssoRespT1)).ok = true ∧
    (SSOCallbackPage.handleCallback Storage.empty (some "c0")
        (some ((AcceptInvitationPage.ssoState invC5.token "http://localhost:5173").getD "")) none
        (fun _ => some ssoRespT1)).store.current_tenant
      = some (tenantInfoString (Json.str "t1") (Json.str "t1")) :=
  handshake_binds_response_tenant_unchecked invC5 Storage.empty "c0" ssoRespT1
    (Json.str "t1") (by decide) rfl rfl

/-- C7 counterexample: decoding a well-formed credential whose payload
lacks both optional claims succeeds with an empty role list, but the
`AuthProvider` decoder's tenant default is the one-space string `" "` —
neither absent nor empty, and truthy, so `login` even stores a tenant
binding whose slug is `" "`. -/
theorem decode_missing_tenant_space_default :
    AuthProvider.decodeTokenPayload tokenEmptyPayload
      = some { id := none, email := none, name := none, username := none,
               roles := Json.arr [], tenant := Json.str " " } ∧
    (Json.str " ").truthy = true ∧
    (" " : String) ≠ "" ∧
    (AuthProvider.login Storage.empty
        (some (Json.obj [("access_token", Json.str tokenEmptyPayload)]))).1.current_tenant
      = some (tenantInfoString (Json.str " ") (Json.str " ")) :=
  ⟨rfl, rfl, by decide, rfl⟩

/-- C7 amended: on every well-formed credential whose payload lacks the
optional `realm_access`/`tenant` claims, both decoders succeed with an
empty role list; the standalone decoder leaves `tenant_slug` absent
(`undefined`), while the `AuthProvider` decoder substitutes the
one-space placeholder `" "` for the missing tenant. -/
theorem decode_missing_claims_defaults (t : String) (p : Json)
    (hp : tokenPayloadJson t = some p) (hnull : p.isNull = false)
    (hra : p.getField "realm_access" = none) (hten : p.getField "tenant" = none) :
    decodeTokenPayload t = some (mkApiUser p) ∧
    (mkApiUser p).roles = Json.arr [] ∧
    (mkApiUser p).tenant_slug = none ∧
    AuthProvider.decodeTokenPayload t = some (AuthProvider.mkUser p) ∧
    (AuthProvider.mkUser p).roles = Json.arr [] ∧
    (AuthProvider.mkUser p).tenant = Json.str " " := by
  refine ⟨?_, ?_, ?_, ?_, ?_, ?_⟩
  · unfold decodeTokenPayload
    rw [hp]
    cases p
    case null => simp [Json.isNull] at hnull
    all_goals rfl
  · unfold mkApiUser
    rw [hra]
    rfl
  · simp [mkApiUser, hten]
  · unfold AuthProvider.decodeTokenPayload
    rw [hp]
    cases p
    case null => simp [Json.isNull] at hnull
    all_goals rfl
  · unfold AuthProvider.mkUser
    rw [hra]
    rfl
  · unfold AuthProvider.mkUser
    rw [hten]
    rfl

/-- Witness for the amended C7 at the empty-payload credential. -/
theorem decode_missing_claims_defaults_witness :
    decodeTokenPayload tokenEmptyPayload = some (mkApiUser (Json.obj [])) ∧
    (mkApiUser (Json.obj [])).roles = Json.arr [] ∧
    (mkApiUser (Json.obj [])).tenant_slug = none ∧
    AuthProvider.decodeTokenPayload tokenEmptyPayload
      = some (AuthProvider.mkUser (Json.obj [])) ∧
    (AuthProvider.mkUser (Json.obj [])).roles = Json.arr [] ∧
    (AuthProvider.mkUser (Json.obj [])).tenant = Json.str " " :=
  decode_missing_claims_defaults tokenEmptyPayload (Json.obj []) rfl rfl rfl rfl

/-- A two-segment string whose second segment is valid base64 JSON. -/
def twoSegToken : String :=
  "x." ++ (btoa (Json.stringify (Json.obj []))).getD ""

/-- C8 counterexample: decode does not reject a wrong segment count — a
two-segment string whose second segment happens to decode succeeds
instead of returning the error result. -/
theorem decode_ignores_segment_count :
    (jsSplitDot twoSegToken).length = 2 ∧
    ¬ (jsSplitDot twoSegToken).length = 3 ∧
    (decodeTokenPayload twoSegToken).isSome = true ∧
    (AuthProvider.decodeTokenPayload twoSegToken).isSome = true :=
  ⟨rfl, by decide, rfl, rfl⟩

/-- C8 amended: decode is a total function — every JS exception along
the pipeline is caught and becomes the `null` error result: a missing
second dot-segment, an invalid base64 payload segment and an unparsable
payload all yield `none`.  But the three-segment shape itself is not
enforced: a wrong segment count alone does not make decode fail. -/
theorem decode_total_error_cases :
    (∀ s, (jsSplitDot s)[1]? = none →
       decodeTokenPayload s = none ∧ AuthProvider.decodeTokenPayload s = none) ∧
    decodeTokenPayload "a.%%%" = none ∧
    decodeTokenPayload ("a." ++ (btoa "[").getD "") = none ∧
    (decodeTokenPayload twoSegToken).isSome = true := by
  refine ⟨?_, rfl, rfl, rfl⟩
  intro s h
  constructor
  · unfold decodeTokenPayload tokenPayloadJson
    rw [h]
  · unfold AuthProvider.decodeTokenPayload tokenPayloadJson
    rw [h]

/-- Witness for the amended C8 at a dotless string. -/
theorem decode_total_error_cases_witness :
    decodeTokenPayload "abc" = none ∧ AuthProvider.decodeTokenPayload "abc" = none :=
  decode_total_error_cases.1 "abc" rfl

/-- Network answers for a plain successful call. -/
def envPlainOk : GatewayEnv :=
  { first := { status := 200, body := some (Json.obj []) }
    refresh := none
    retry := { status := 200, body := none } }

/-- C9 counterexample: with no stored access credential, the `auth.jsx`
gateway still dispatches the network request — and does so without any
bearer credential header, instead of failing fast. -/
theorem unauthenticated_request_still_dispatched :
    Storage.empty.access_token = none ∧
    (apiClient.request Storage.empty envPlainOk).dispatches = 1 ∧
    (apiClient.request Storage.empty envPlainOk).firstHeaders.authorization = none :=
  ⟨rfl, rfl, rfl⟩

/-- C9 amended: of the two gateways, only `utils/apiClient.js`'s
`ApiClient.request` fails fast with no session (it throws before any
dispatch); the `auth.jsx` `apiClient.request` dispatches the request
anyway, with no `Authorization` header attached. -/
theorem no_session_fail_fast_divergence (st : Storage) (resp : HttpResponse)
    (env : GatewayEnv) (h : st.access_token = none) :
    ((ApiClient.request st resp).dispatches = 0 ∧
     (ApiClient.request st resp).outcome = ApiClient.Outcome.noToken) ∧
    (1 ≤ (apiClient.request st env).dispatches ∧
     (apiClient.request st env).firstHeaders.authorization = none) := by
  obtain ⟨a, rt, ct, u⟩ := st
  dsimp only at h
  subst h
  refine ⟨⟨rfl, rfl⟩, ?_, ?_⟩
  · unfold apiClient.request
    by_cases h1 : env.first.status = 401
    · rw [if_pos h1]
      by_cases hrt : jsTruthyStr rt = true
      · rw [if_pos hrt]
        cases env.refresh with
        | none => exact Nat.le_refl 1
        | some data => exact Nat.le_succ 1
      · rw [if_neg hrt]
    · rw [if_neg h1]
  · unfold apiClient.request
    by_cases h1 : env.first.status = 401
    · rw [if_pos h1]
      by_cases hrt : jsTruthyStr rt = true
      · rw [if_pos hrt]
        cases env.refresh with
        | none => rfl
        | some data => rfl
      · rw [if_neg hrt]
        rfl
    · rw [if_neg h1]
      rfl

/-- A plain ok response for the class gateway. -/
def respPlainOk : HttpResponse := { status := 200, body := some (Json.obj []) }

/-- Witness for the amended C9 on the empty store. -/
theorem no_session_fail_fast_divergence_witness :
    ((ApiClient.request Storage.empty respPlainOk).dispatches = 0 ∧
     (ApiClient.request Storage.empty respPlainOk).outcome = ApiClient.Outcome.noToken) ∧
    (1 ≤ (apiClient.request Storage.empty envPlainOk).dispatches ∧
     (apiClient.request Storage.empty envPlainOk).firstHeaders.authorization = none) :=
  no_session_fail_fast_divergence Storage.empty respPlainOk envPlainOk rfl

